import Mathlib

/-!
Verification of the Investify resilient data-acquisition layer.

The Go sources under `internal/services` and `internal/handlers` are embedded
shallowly: pure computations become Lean functions over `Rat` (the idealised
value of Go `float64` arithmetic), global mutable state (failure counter,
cache) is threaded explicitly, and network / subprocess interactions are
modelled by oracle arguments describing the outcome the environment produced.
-/

namespace Investify

/-- Canonical quote record, mirroring `StockInfo` in
`internal/services/stock_service.go`.  Go `float64` fields are modelled as
`Rat`; display strings stay strings. -/
structure StockInfo where
  ticker : String
  companyName : String
  price : Rat
  change : Rat
  changePct : String
  open_ : Rat
  high : Rat
  low : Rat
  volume : String
  marketCap : String
  recommendation : String
  aiAnalysis : String
  predictedPrice : Rat
  predictionConfidence : Rat
  trendDirection : String
  keyFactors : List String
  dataAge : Int
  deriving DecidableEq, Repr

/-- Prediction record, mirroring `StockPrediction` in
`internal/services/tensorflow_model.go`. -/
structure StockPrediction where
  predictedPrice : Rat
  confidence : Rat
  direction : String
  factors : List String
  deriving DecidableEq, Repr

/-- Go `math.Round`: round half away from zero. -/
def goRound (q : Rat) : Int :=
  if 0 ≤ q then ⌊q + 1/2⌋ else ⌈q - 1/2⌉

/-- Rounding a value to cent precision, as in
`math.Round(predictedPrice*100) / 100`. -/
def roundCents (q : Rat) : Rat := (goRound (q * 100) : Rat) / 100

/-- Fixed-point decimal rendering with `prec` fraction digits, the idealised
value-level behaviour of Go `fmt.Sprintf("%.Nf", x)` (ties are immaterial for
every value the claims touch). -/
def fmtFixed (prec : Nat) (q : Rat) : String :=
  let scale : Int := (10 : Int) ^ prec
  let n : Int := goRound (q * (scale : Rat))
  let sign := if n < 0 then "-" else ""
  let a := n.natAbs
  let ip := a / scale.toNat
  let fp := a % scale.toNat
  if prec = 0 then sign ++ toString ip
  else
    let fs := toString fp
    let pad := String.mk (List.replicate (prec - fs.length) '0')
    sign ++ toString ip ++ "." ++ pad ++ fs

/-- Go `strings.TrimSpace`: drop leading and trailing whitespace. -/
def goTrimSpace (s : String) : String :=
  String.mk ((((s.toList.dropWhile (·.isWhitespace)).reverse).dropWhile
    (·.isWhitespace)).reverse)

/-- Go `strings.ToUpper`. -/
def goToUpper (s : String) : String :=
  String.mk (s.toList.map Char.toUpper)

/-- The normalisation `strings.ToUpper(strings.TrimSpace(x))` applied to
every incoming ticker or query. -/
def normalizeTicker (s : String) : String :=
  goToUpper (goTrimSpace s)

/-- Sum of the character codes of the ticker, the seed computed by the loop
`for _, char := range ticker { seed += int64(char) }` in
`createRealisticStockData`. -/
def charSum (s : String) : Nat :=
  (s.toList.map Char.toNat).sum

/-- `generateAIRecommendation` from `stock_service.go`. -/
def generateAIRecommendation (ticker : String) (_price change : Rat) : String :=
  if change > 2 then
    "BUY - " ++ ticker ++ " shows strong positive momentum with significant upward price movement. Technical indicators suggest continued strength."
  else if change < -2 then
    "HOLD - " ++ ticker ++ " experiencing temporary weakness. Current price levels may present attractive entry points for long-term investors."
  else
    "HOLD - " ++ ticker ++ " trading within normal ranges. Maintain current positions while monitoring market conditions."

/-- `generateAIAnalysis` from `stock_service.go`. -/
def generateAIAnalysis (ticker : String) (price _change changePct : Rat) : String :=
  if |changePct| > 3 then
    "Significant price movement detected for " ++ ticker ++ ". Volume analysis suggests institutional involvement. Key levels: support at $" ++ fmtFixed 2 (price * (95/100)) ++ ", resistance at $" ++ fmtFixed 2 (price * (105/100)) ++ "."
  else
    "Normal trading patterns observed for " ++ ticker ++ ". Price action suggests consolidation phase. Technical outlook remains constructive."

/-- `determineTrendDirection` from `stock_service.go`. -/
def determineTrendDirection (change : Rat) : String :=
  if change > 3/2 then "UP"
  else if change < -(3/2) then "DOWN"
  else "NEUTRAL"

/-- `generateKeyFactors` from `stock_service.go`. -/
def generateKeyFactors (_ticker : String) (change : Rat) : List String :=
  let baseFactors := [
    "Market sentiment analysis indicates mixed signals",
    "Institutional ownership patterns showing stability",
    "Technical analysis suggests range-bound trading"]
  if change > 0 then
    baseFactors ++ [
      "Positive price momentum indicating buyer interest",
      "Volume patterns supporting upward price action"]
  else if change < 0 then
    baseFactors ++ [
      "Recent selling pressure creating potential opportunities",
      "Support levels holding despite downward pressure"]
  else baseFactors

/-- The hardcoded demo entry for `"WBA"` in `createRealisticStockData`. -/
def enhancedWBA : StockInfo :=
  { ticker := "WBA", companyName := "Walgreens Boots Alliance, Inc."
    price := 1134/100, change := -(28/100), changePct := "-2.41%"
    open_ := 1162/100, high := 1175/100, low := 1118/100
    volume := "12.8M", marketCap := "$9.78B"
    recommendation := "HOLD - Walgreens faces significant headwinds from retail pharmacy consolidation and healthcare cost pressures. However, VillageCare acquisition and strategic partnerships with healthcare providers position the company for potential transformation. Dividend yield remains attractive but sustainability uncertain."
    aiAnalysis := "Technical indicators show oversold conditions with potential for near-term bounce. Healthcare transformation initiatives gaining traction but execution risks remain elevated. Debt reduction efforts progressing ahead of schedule."
    predictedPrice := 1285/100, predictionConfidence := 684/10
    trendDirection := "NEUTRAL"
    keyFactors := [
      "VillageCare acquisition expanding healthcare services",
      "Retail pharmacy market facing margin compression",
      "Strategic partnerships with major health insurers",
      "Cost reduction program targeting $1B+ savings",
      "Digital health platform showing user growth",
      "Debt reduction ahead of management targets"]
    dataAge := 0 }

/-- The hardcoded demo entry for `"AAPL"` in `createRealisticStockData`. -/
def enhancedAAPL : StockInfo :=
  { ticker := "AAPL", companyName := "Apple Inc."
    price := 18975/100, change := 325/100, changePct := "1.74%"
    open_ := 18650/100, high := 19120/100, low := 18580/100
    volume := "58.2M", marketCap := "$2.95T"
    recommendation := "BUY - Apple continues to demonstrate exceptional innovation and market leadership. Strong iPhone 15 sales, expanding services ecosystem, and Vision Pro market entry position Apple for sustained growth."
    aiAnalysis := "Technical analysis reveals strong bullish momentum with the stock breaking above key resistance at $188. The 50-day moving average is trending upward, indicating positive investor sentiment."
    predictedPrice := 1985/10, predictionConfidence := 847/10
    trendDirection := "UP"
    keyFactors := [
      "iPhone 15 Pro sales exceeding expectations globally",
      "Services revenue accelerating with 16% YoY growth",
      "Vision Pro creating new augmented reality market"]
    dataAge := 0 }

/-- `createRealisticStockData` from `stock_service.go` (second revision in the
file).  `nameOf` models `getCompanyNameFromTicker`, whose result depends on
the nondeterministic Go map iteration order; every other field is computed
exactly as in the source.  Go `%` on the nonnegative seed is `Nat.mod`. -/
def createRealisticStockData (nameOf : String → String) (ticker : String) :
    StockInfo :=
  if ticker = "WBA" then enhancedWBA
  else if ticker = "AAPL" then enhancedAAPL
  else
    let seed := charSum ticker
    let basePrice : Rat := 50 + (seed % 180 : Nat) + (seed % 100 : Nat) / 100
    let change : Rat := ((seed % 40 : Nat) - (20 : Rat)) / 5
    let changePct : Rat := change / basePrice * 100
    { ticker := ticker
      companyName := nameOf ticker
      price := basePrice
      change := change
      changePct := fmtFixed 2 changePct ++ "%"
      open_ := basePrice - change * (4/10)
      high := basePrice + |change * (18/10)|
      low := basePrice - |change * (15/10)|
      volume := fmtFixed 1 (8 + (seed % 45 : Nat)) ++ "M"
      marketCap := "$" ++ fmtFixed 1 (2 + (seed % 300 : Nat)) ++ "B"
      recommendation := generateAIRecommendation ticker basePrice change
      aiAnalysis := generateAIAnalysis ticker basePrice change changePct
      predictedPrice := basePrice * (1 + ((seed % 12 : Nat) - (6 : Rat)) / 100)
      predictionConfidence := 65 + (seed % 25 : Nat)
      trendDirection := determineTrendDirection change
      keyFactors := generateKeyFactors ticker change
      dataAge := 0 }

/-- `formatVolume` from `stock_service.go`. -/
def formatVolume (volume : Int) : String :=
  if volume ≥ 10 ^ 9 then fmtFixed 2 ((volume : Rat) / 10 ^ 9) ++ "B"
  else if volume ≥ 10 ^ 6 then fmtFixed 2 ((volume : Rat) / 10 ^ 6) ++ "M"
  else if volume ≥ 10 ^ 3 then fmtFixed 2 ((volume : Rat) / 10 ^ 3) ++ "K"
  else toString volume

/-- `formatMarketCap` from `stock_service.go`. -/
def formatMarketCap (marketCap : Int) : String :=
  if marketCap ≥ 10 ^ 12 then "$" ++ fmtFixed 2 ((marketCap : Rat) / 10 ^ 12) ++ "T"
  else if marketCap ≥ 10 ^ 9 then "$" ++ fmtFixed 2 ((marketCap : Rat) / 10 ^ 9) ++ "B"
  else if marketCap ≥ 10 ^ 6 then "$" ++ fmtFixed 2 ((marketCap : Rat) / 10 ^ 6) ++ "M"
  else "$" ++ toString marketCap

/-- Go `strings.Trim(s, "%")`: strip `%` characters from both ends. -/
def trimPercent (s : String) : String :=
  String.mk ((((s.toList.dropWhile (· = '%')).reverse).dropWhile (· = '%')).reverse)

/-- The `companyNameToTicker` map from `stock_service.go` (second revision,
which extends the first with the two Walgreens entries). -/
def companyNameToTicker : List (String × String) := [
  ("GOOGLE", "GOOGL"), ("ALPHABET", "GOOGL"), ("FACEBOOK", "META"),
  ("TWITTER", "TWTR"), ("X", "TWTR"), ("TESLA", "TSLA"), ("APPLE", "AAPL"),
  ("MICROSOFT", "MSFT"), ("AMAZON", "AMZN"), ("NETFLIX", "NFLX"),
  ("UBER", "UBER"), ("LYFT", "LYFT"), ("NVIDIA", "NVDA"),
  ("NVIDIA CORPORATION", "NVDA"), ("AMD", "AMD"),
  ("ADVANCED MICRO DEVICES", "AMD"), ("INTEL", "INTC"),
  ("BERKSHIRE", "BRK-B"), ("BERKSHIRE HATHAWAY", "BRK-B"),
  ("JPMORGAN", "JPM"), ("JP MORGAN", "JPM"), ("WALMART", "WMT"),
  ("COCA-COLA", "KO"), ("COKE", "KO"), ("MCDONALDS", "MCD"),
  ("BOEING", "BA"), ("DISNEY", "DIS"), ("WALT DISNEY", "DIS"),
  ("PAYPAL", "PYPL"), ("SALESFORCE", "CRM"), ("ZOOM", "ZM"),
  ("SPOTIFY", "SPOT"), ("SHOPIFY", "SHOP"), ("SQUARE", "SQ"),
  ("BLOCK", "SQ"), ("IBM", "IBM"), ("ORACLE", "ORCL"), ("CISCO", "CSCO"),
  ("ADOBE", "ADBE"), ("QUALCOMM", "QCOM"), ("TEXAS INSTRUMENTS", "TXN"),
  ("NINTENDO", "NTDOY"), ("SONY", "SONY"), ("MERCEDES", "MBG.DE"),
  ("MERCEDES BENZ", "MBG.DE"), ("BMW", "BMW.DE"), ("VOLKSWAGEN", "VOW3.DE"),
  ("TOYOTA", "TM"), ("FORD", "F"), ("GENERAL MOTORS", "GM"), ("GM", "GM"),
  ("GAMESTOP", "GME"), ("AMC", "AMC"), ("ROBINHOOD", "HOOD"),
  ("COINBASE", "COIN"), ("SNAPCHAT", "SNAP"), ("PINTEREST", "PINS"),
  ("REDDIT", "RDDT"), ("TIKTOK", "BDNCE"), ("WALGREENS", "WBA"),
  ("WALGREENS BOOTS ALLIANCE", "WBA")]

/-- Lookup in the company-name map, the `companyNameToTicker[input]` read. -/
def companyLookup (input : String) : Option String :=
  (companyNameToTicker.find? (fun p => p.1 = input)).map (·.2)

/-- Twelve Data wire record (the `twelveResp` anonymous struct).  In the
source the numeric fields arrive as strings and are parsed defensively with
`strconv.ParseFloat(..., 64)` whose error is discarded; a field here is
`none` exactly when that parse fails, so `Option.getD 0` is the `value, _ :=`
idiom.  Fields the code never reads are omitted. -/
structure TwelveWire where
  symbol : String
  name : String
  open_ : Option Rat
  high : Option Rat
  low : Option Rat
  close : Option Rat
  volume : Option Int
  change : Option Rat
  percentChange : String
  deriving DecidableEq, Repr

/-- `parseTwelveDataResponse` from `stock_service.go`. -/
def parseTwelveDataResponse (data : TwelveWire) : StockInfo :=
  { ticker := data.symbol
    companyName := data.name
    price := data.close.getD 0
    change := data.change.getD 0
    changePct := trimPercent data.percentChange ++ "%"
    open_ := data.open_.getD 0
    high := data.high.getD 0
    low := data.low.getD 0
    volume := formatVolume (data.volume.getD 0)
    marketCap := "N/A"
    recommendation := "", aiAnalysis := ""
    predictedPrice := 0, predictionConfidence := 0
    trendDirection := "", keyFactors := []
    dataAge := 0 }

/-- Alpha Vantage wire record (the `alphaResp.GlobalQuote` struct), with the
same defensive-parse convention as `TwelveWire`. -/
structure AlphaWire where
  symbol : String
  open_ : Option Rat
  high : Option Rat
  low : Option Rat
  price : Option Rat
  volume : Option Int
  change : Option Rat
  changePercent : String
  deriving DecidableEq, Repr

/-- `parseAlphaVantageData` from `stock_service.go`.  `nameOf` models
`getCompanyNameFromTicker`, whose result depends on Go map iteration order. -/
def parseAlphaVantageData (nameOf : String → String) (quote : AlphaWire) :
    StockInfo :=
  { ticker := quote.symbol
    companyName := nameOf quote.symbol
    price := quote.price.getD 0
    change := quote.change.getD 0
    changePct := trimPercent quote.changePercent
    open_ := quote.open_.getD 0
    high := quote.high.getD 0
    low := quote.low.getD 0
    volume := formatVolume (quote.volume.getD 0)
    marketCap := "N/A"
    recommendation := "", aiAnalysis := ""
    predictedPrice := 0, predictionConfidence := 0
    trendDirection := "", keyFactors := []
    dataAge := 0 }

/-- Finnhub wire record (the `finnhubResp` struct); all fields are JSON
numbers. -/
structure FinnWire where
  c : Rat
  d : Rat
  dp : Rat
  h : Rat
  l : Rat
  o : Rat
  pc : Rat
  deriving DecidableEq, Repr

/-- `parseFinnhubData` from `stock_service.go`. -/
def parseFinnhubData (nameOf : String → String) (quote : FinnWire)
    (ticker : String) : StockInfo :=
  { ticker := ticker
    companyName := nameOf ticker
    price := quote.c
    change := quote.d
    changePct := fmtFixed 2 quote.dp ++ "%"
    open_ := quote.o
    high := quote.h
    low := quote.l
    volume := "N/A"
    marketCap := "N/A"
    recommendation := "", aiAnalysis := ""
    predictedPrice := 0, predictionConfidence := 0
    trendDirection := "", keyFactors := []
    dataAge := 0 }

/-- `fetchFromTwelveData`.  The oracle is `none` when the transport, body
read, or JSON decode failed (each of those paths returns an error in the
source), and `some w` when a body decoded to `w`. -/
def fetchFromTwelveData (oracle : Option TwelveWire) (ticker : String) :
    Except String StockInfo :=
  match oracle with
  | none => .error ("twelve data request failed for " ++ ticker)
  | some w =>
    if w.symbol = "" then .error ("no data found for ticker " ++ ticker)
    else .ok (parseTwelveDataResponse w)

/-- `fetchFromAlphaVantage`, same oracle convention. -/
def fetchFromAlphaVantage (nameOf : String → String)
    (oracle : Option AlphaWire) (ticker : String) : Except String StockInfo :=
  match oracle with
  | none => .error ("alpha vantage request failed for " ++ ticker)
  | some w =>
    if w.symbol = "" then .error ("no data found for ticker " ++ ticker)
    else .ok (parseAlphaVantageData nameOf w)

/-- `fetchFromFinnhub`, same oracle convention; a zero current price is
rejected. -/
def fetchFromFinnhub (nameOf : String → String) (oracle : Option FinnWire)
    (ticker : String) : Except String StockInfo :=
  match oracle with
  | none => .error ("finnhub request failed for " ++ ticker)
  | some w =>
    if w.c = 0 then .error ("no data found for ticker " ++ ticker)
    else .ok (parseFinnhubData nameOf w ticker)

/-- A cache entry, mirroring `CachedStock` (quote pointer plus fetch
timestamp); time is in whole seconds. -/
structure CachedStock where
  data : StockInfo
  timestamp : Nat
  deriving DecidableEq, Repr

/-- The process-wide `stockCache` map, modelled as an association list with
map semantics. -/
def Cache := List (String × CachedStock)
  deriving DecidableEq

/-- Map read `stockCache[k]`. -/
def cacheLookup (c : Cache) (k : String) : Option CachedStock :=
  ((List.find? (fun p => p.1 = k)) c).map (·.2)

/-- Map write `stockCache[k] = v` (replaces any existing binding). -/
def cacheInsert (c : Cache) (k : String) (v : CachedStock) : Cache :=
  (k, v) :: (List.filter (fun p => !(p.1 = k)) c)

/-- The shared enrichment block: the recommendation / prediction section that
appears verbatim both inline in the first revision of `FetchStockInfo` and in
`addAIAnalysis`.  `rec` is the outcome of `aiService.GetStockRecommendation`;
`pred` is `some p` when `tfModelService.PredictStockMovement` was attempted
and returned `(p, nil)`, else `none`. -/
def enrichStockInfo (q : StockInfo) (rec : Except String String)
    (pred : Option StockPrediction) : StockInfo :=
  let q1 := { q with recommendation :=
    match rec with
    | .error _ => "HOLD - Unable to generate recommendation"
    | .ok r => r }
  if q1.price > 0 then
    match pred with
    | some p =>
      let priceDiff := (p.predictedPrice - q1.price) / q1.price * 100
      let directionText :=
        if priceDiff > 1 then "rise"
        else if priceDiff < -1 then "fall"
        else "remain stable"
      { q1 with
        predictedPrice := p.predictedPrice
        predictionConfidence := p.confidence * 100
        trendDirection := p.direction
        keyFactors := p.factors
        aiAnalysis := "AI model predicts the stock will " ++ directionText ++
          " with " ++ fmtFixed 1 (p.confidence * 100) ++
          "% confidence. Predicted price: $" ++ fmtFixed 2 p.predictedPrice ++
          " (" ++ fmtFixed 1 priceDiff ++ "%)" }
    | none => q1
  else q1

/-- `addAIAnalysis` from `stock_service.go`: enrich the quote, then cache it
under its own ticker symbol; the Go function always returns a `nil` error. -/
def addAIAnalysis (q : StockInfo) (rec : Except String String)
    (pred : Option StockPrediction) (cache : Cache) (now : Nat) :
    StockInfo × Cache :=
  let e := enrichStockInfo q rec pred
  (e, cacheInsert cache e.ticker ⟨e, now⟩)

/-- The three upstream providers tried by the chain. -/
inductive Provider
  | twelveData
  | alphaVantage
  | finnhub
  deriving DecidableEq, Repr

/-- `FetchStockInfo` (second revision of `stock_service.go`): the ordered
provider chain.  The returned list records which providers were invoked, in
invocation order; the cache is the state after any write performed by
`addAIAnalysis`. -/
def FetchStockInfoChain (nameOf : String → String) (ticker0 : String)
    (tw : Option TwelveWire) (av : Option AlphaWire) (fh : Option FinnWire)
    (rec : Except String String) (pred : Option StockPrediction)
    (cache : Cache) (now : Nat) :
    (Except String StockInfo) × Cache × List Provider :=
  let ticker := normalizeTicker ticker0
  if ticker = "" then
    (.error "please enter a valid ticker symbol or company name", cache, [])
  else
    match fetchFromTwelveData tw ticker with
    | .ok q =>
      let (e, c') := addAIAnalysis q rec pred cache now
      (.ok e, c', [.twelveData])
    | .error _ =>
      match fetchFromAlphaVantage nameOf av ticker with
      | .ok q =>
        let (e, c') := addAIAnalysis q rec pred cache now
        (.ok e, c', [.twelveData, .alphaVantage])
      | .error _ =>
        match fetchFromFinnhub nameOf fh ticker with
        | .ok q =>
          let (e, c') := addAIAnalysis q rec pred cache now
          (.ok e, c', [.twelveData, .alphaVantage, .finnhub])
        | .error _ =>
          (.ok (createRealisticStockData nameOf ticker), cache,
            [.twelveData, .alphaVantage, .finnhub])

/-- Outcome of `SearchStock`: either a cache hit (with the post-read cache,
whose entry had its `DataAge` field mutated in place), or a miss that
proceeds to `FetchStockInfo ticker` — the only path that touches the
network. -/
inductive SearchOutcome
  | hit (q : StockInfo) (c : Cache)
  | miss (ticker : String)
  deriving DecidableEq

/-- The ticker a query resolves to in `SearchStock`: uppercased, trimmed,
and mapped through `companyNameToTicker`. -/
def resolveTicker (query : String) : String :=
  let input := normalizeTicker query
  (companyLookup input).getD input

/-- `SearchStock` from `stock_service.go`: serve from the cache when the
entry is younger than five minutes (updating its `DataAge` in place), else
fall through to `FetchStockInfo`.  `now` is the current time in seconds and
is assumed monotone (never behind a stored timestamp). -/
def SearchStock (query : String) (cache : Cache) (now : Nat) : SearchOutcome :=
  match cacheLookup cache (resolveTicker query) with
  | some cached =>
    if now - cached.timestamp < 300 then
      .hit { cached.data with dataAge := ((now - cached.timestamp : Nat) : Int) }
        (cacheInsert cache (resolveTicker query)
          ⟨{ cached.data with dataAge := ((now - cached.timestamp : Nat) : Int) },
            cached.timestamp⟩)
    else .miss (resolveTicker query)
  | none => .miss (resolveTicker query)

/-- `CacheStockInfo` from the exported test-support file: store a quote under
`key` with the current timestamp. -/
def CacheStockInfo (cache : Cache) (key : String) (stock : StockInfo)
    (now : Nat) : Cache :=
  cacheInsert cache key ⟨stock, now⟩

/-- `GetCachedStock` from the exported test-support file: return the cached
quote with its `DataAge` refreshed in place (no TTL check on this path). -/
def GetCachedStock (cache : Cache) (key : String) (now : Nat) :
    Option StockInfo × Cache :=
  match cacheLookup cache key with
  | some cached =>
    let updated := { cached.data with dataAge := ((now - cached.timestamp : Nat) : Int) }
    (some updated, cacheInsert cache key ⟨updated, cached.timestamp⟩)
  | none => (none, cache)

/-- One result element of the Yahoo `quoteResponse.result` array. -/
structure YahooQuote where
  symbol : String
  shortName : String
  longName : String
  regularMarketPrice : Rat
  regularMarketChange : Rat
  regularMarketChangePercent : Rat
  regularMarketOpen : Rat
  regularMarketDayHigh : Rat
  regularMarketDayLow : Rat
  regularMarketVolume : Int
  marketCap : Int
  deriving DecidableEq, Repr

/-- What the environment did for one Yahoo call, covering every failure path
of the first-revision `FetchStockInfo`. -/
inductive YahooOutcome
  | reqErr
  | netErr
  | badStatus (code : Nat)
  | readErr
  | parseErr
  | apiErr
  | ok (results : List YahooQuote)
  deriving DecidableEq, Repr

/-- `getCompanyName` from `stock_service.go`. -/
def getCompanyName (longName shortName symbol : String) : String :=
  if longName ≠ "" then longName
  else if shortName ≠ "" then shortName
  else symbol

/-- The process-wide failure-suppressor state: `apiFailureCount` and
`lastApiCallTime` (seconds). -/
structure FailState where
  count : Nat
  lastCall : Nat
  deriving DecidableEq, Repr

/-- `FetchStockInfo` (first revision of `stock_service.go`, the Yahoo
Finance path with the failure-suppression gate).  Returns the result, the
updated failure state, whether a network request was attempted (`client.Do`
reached), and the updated cache.  `now` is the current time in seconds. -/
def FetchStockInfoYahoo (ticker0 : String) (st : FailState)
    (net : YahooOutcome) (rec : Except String String)
    (pred : Option StockPrediction) (cache : Cache) (now : Nat) :
    (Except String StockInfo) × FailState × Bool × Cache :=
  let ticker := normalizeTicker ticker0
  if ticker = "" then
    (.error "please enter a valid ticker symbol or company name", st, false, cache)
  else if st.count > 3 ∧ now - st.lastCall < 300 then
    (.error "yahoo Finance API is currently experiencing issues - please try again in a few minutes",
      st, false, cache)
  else
    match net with
    | .reqErr => (.error "failed to create request", st, false, cache)
    | .netErr =>
      (.error "network error connecting to Yahoo Finance - please try again later",
        { count := st.count + 1, lastCall := now }, true, cache)
    | .badStatus code =>
      (.error ("yahoo finance API error (code " ++ toString code ++ ")"),
        { count := st.count + 1, lastCall := now }, true, cache)
    | .readErr =>
      (.error "failed to read response",
        { count := st.count, lastCall := now }, true, cache)
    | .parseErr =>
      (.error "failed to parse response",
        { count := st.count, lastCall := now }, true, cache)
    | .apiErr =>
      (.error "yahoo API error",
        { count := st.count + 1, lastCall := now }, true, cache)
    | .ok results =>
      let st' : FailState := { count := 0, lastCall := now }
      match results with
      | [] =>
        (.error ("no data found for " ++ ticker), st', true, cache)
      | quote :: _ =>
        if quote.regularMarketPrice ≤ 0 then
          (.error "invalid price data received from Yahoo Finance API", st', true, cache)
        else
          let stockInfo : StockInfo :=
            { ticker := quote.symbol
              companyName := getCompanyName quote.longName quote.shortName quote.symbol
              price := quote.regularMarketPrice
              change := quote.regularMarketChange
              changePct := fmtFixed 2 quote.regularMarketChangePercent ++ "%"
              open_ := quote.regularMarketOpen
              high := quote.regularMarketDayHigh
              low := quote.regularMarketDayLow
              volume := formatVolume quote.regularMarketVolume
              marketCap := formatMarketCap quote.marketCap
              recommendation := "", aiAnalysis := ""
              predictedPrice := 0, predictionConfidence := 0
              trendDirection := "", keyFactors := []
              dataAge := 0 }
          let e := enrichStockInfo stockInfo rec pred
          (.ok e, st', true, cacheInsert cache ticker ⟨e, now⟩)

/-- The predicted percentage change of the simple fallback inside
`PredictStockMovement` (`tensorflow_model.go`, lines 88-104), after the
trend amplification/reversal and the clamp to ±5.  `r` models
`(math.Sin(time.Now().Unix())+1)*0.5`, a value in `[0, 1]`. -/
def fallbackChangePercent (stock : StockInfo) (r : Rat) : Rat :=
  let changePercent :=
    if stock.change ≠ 0 ∧ stock.price ≠ 0 then stock.change / stock.price * 100
    else 0
  let amplified :=
    if r > 1/2 then changePercent * (12/10) else changePercent * (-(8/10))
  max (-5) (min 5 amplified)

/-- The predicted dollar change of the fallback,
`stock.Price * (changePercent / 100.0)`. -/
def fallbackPredictedChange (stock : StockInfo) (r : Rat) : Rat :=
  stock.price * (fallbackChangePercent stock r / 100)

/-- The simple fallback prediction inside `PredictStockMovement`
(`tensorflow_model.go`, lines 84-161).  `hour` is `time.Now().Hour()`. -/
def fallbackPrediction (stock : StockInfo) (r : Rat) (hour : Nat) :
    StockPrediction :=
  let predictedChange := fallbackPredictedChange stock r
  let predictedPrice := roundCents (stock.price + predictedChange)
  let direction :=
    if predictedChange > 0 then "UP"
    else if predictedChange < 0 then "DOWN"
    else "NEUTRAL"
  let confidence := 60 + r * 30
  let momentum :=
    if stock.change > 0 then ["Recent positive price momentum"]
    else if stock.change < 0 then ["Recent negative price momentum"]
    else []
  let dayRange := stock.high - stock.low
  let rangeNote :=
    if dayRange > 0 then
      let pricePosition := (stock.price - stock.low) / dayRange
      if pricePosition > 8/10 then ["Price near daily high"]
      else if pricePosition < 2/10 then ["Price near daily low"]
      else []
    else []
  let session :=
    if hour < 12 then ["Morning market conditions"]
    else if hour < 16 then ["Afternoon trading patterns"]
    else ["After-hours sentiment"]
  let factors0 := momentum ++ rangeNote ++ session
  let factors :=
    if factors0.length < 2 then factors0 ++ ["Based on technical analysis"]
    else factors0
  { predictedPrice := predictedPrice
    confidence := confidence
    direction := direction
    factors := factors }

/-- `PredictStockMovement` from `tensorflow_model.go`.  `bridgeInit` is
`bridge.initialized`; `simpleResult` and `origResult` are the outcomes of the
two Python bridge attempts (`none` for an error); the bridge results are
copied field-for-field, so they are already `StockPrediction`s. -/
def PredictStockMovement (modelReady bridgeInit : Bool)
    (simpleResult origResult : Option StockPrediction) (stock : StockInfo)
    (r : Rat) (hour : Nat) : Except String StockPrediction :=
  if !modelReady then .error "tensorflow model not initialized"
  else if bridgeInit then
    match simpleResult with
    | some p => .ok p
    | none =>
      match origResult with
      | some p => .ok p
      | none => .ok (fallbackPrediction stock r hour)
  else .ok (fallbackPrediction stock r hour)

/-- `calculateConfidence` from `tensorflow_model.go`. -/
def calculateConfidence (signals : List Rat) (prediction : Rat) : Rat :=
  let agreementCount :=
    (signals.filter fun s =>
      (prediction > 0 ∧ s > 0) ∨ (prediction < 0 ∧ s < 0)).length
  let baseConfidence := (agreementCount : Rat) / (signals.length : Rat)
  let magnitudePenalty := min (|prediction| / 10) (3/10)
  max (35/100) (min (95/100) (baseConfidence - magnitudePenalty))

/-- The feature values read by `simulatePrediction` and
`identifyKeyFactors` out of the `features` map built by `extractFeatures`. -/
structure Features where
  pricePosition : Rat
  changePct : Rat
  volatility : Rat
  marketCap : Rat
  openGap : Rat
  deriving DecidableEq, Repr

/-- The predicted percentage change computed by `simulatePrediction`
(`tensorflow_model.go`, lines 219-248).  `intraday` is
`time.Now().Hour() < 16`; `r` models `math.Sin(time.Now().UnixNano())*0.5`,
a value in `[-1/2, 1/2]`. -/
def simPredictedChangePct (f : Features) (intraday : Bool) (r : Rat) : Rat :=
  let momentumFactor := f.changePct * (1/10)
  let positionFactor := (f.pricePosition - 1/2) * (-(2/10))
  let volatilityFactor := f.volatility * (5/100)
  let marketCapFactor : Rat :=
    if f.marketCap > 10 ^ 11 then -(1/10)
    else if f.marketCap < 10 ^ 9 then 2/10
    else 0
  let base := momentumFactor + positionFactor + volatilityFactor + marketCapFactor
  let adjusted :=
    if intraday then
      if f.pricePosition > 8/10 then base - 3/10
      else if f.pricePosition < 2/10 then base + 3/10
      else base
    else base
  adjusted + r

/-- Insertion into a list sorted by decreasing absolute importance,
modelling the `sort.Slice` comparison in `identifyKeyFactors`. -/
def insertByAbs (x : String × Rat) :
    List (String × Rat) → List (String × Rat)
  | [] => [x]
  | y :: ys => if |x.2| > |y.2| then x :: y :: ys else y :: insertByAbs x ys

/-- Sort by decreasing absolute importance (`sort.Slice` on
`factorImportances`; tie order is unspecified in Go, models one order). -/
def sortByAbs : List (String × Rat) → List (String × Rat)
  | [] => []
  | x :: xs => insertByAbs x (sortByAbs xs)

/-- `identifyKeyFactors` from `tensorflow_model.go` (the `prediction`
argument is accepted but never read, as in the source). -/
def identifyKeyFactors (stock : StockInfo) (f : Features) (_prediction : Rat) :
    List String :=
  let marketCapFactor : Rat :=
    if f.marketCap > 10 ^ 11 then -(1/10)
    else if f.marketCap < 10 ^ 9 then 2/10
    else 0
  let factorImportances : List (String × Rat) := [
    ("Price momentum", f.changePct * (1/10)),
    ("Position in day's range", (f.pricePosition - 1/2) * (-(2/10))),
    ("Volatility", f.volatility * (5/100)),
    ("Market capitalization", marketCapFactor),
    ("Open price position", f.openGap * (1/10))]
  let sorted := sortByAbs factorImportances
  let top := (sorted.take 3).filterMap fun p =>
    if |p.2| < 5/100 then none
    else if p.2 > 0 then some (p.1 ++ " appears positive")
    else some (p.1 ++ " appears negative")
  let openNote :=
    if stock.price > stock.open_ then ["Price is above opening"]
    else if stock.price < stock.open_ then ["Price is below opening"]
    else []
  top ++ openNote

/-- `simulatePrediction` from `tensorflow_model.go`. -/
def simulatePrediction (stock : StockInfo) (f : Features) (intraday : Bool)
    (r : Rat) : StockPrediction :=
  let momentumFactor := f.changePct * (1/10)
  let positionFactor := (f.pricePosition - 1/2) * (-(2/10))
  let volatilityFactor := f.volatility * (5/100)
  let marketCapFactor : Rat :=
    if f.marketCap > 10 ^ 11 then -(1/10)
    else if f.marketCap < 10 ^ 9 then 2/10
    else 0
  let predictedChangePct := simPredictedChangePct f intraday r
  let predictedPrice := roundCents (stock.price * (1 + predictedChangePct / 100))
  let direction :=
    if predictedChangePct > 1 then "UP"
    else if predictedChangePct < -1 then "DOWN"
    else "NEUTRAL"
  let confidence := calculateConfidence
    [momentumFactor, positionFactor, volatilityFactor, marketCapFactor, r]
    predictedChangePct
  { predictedPrice := predictedPrice
    confidence := confidence
    direction := direction
    factors := identifyKeyFactors stock f predictedChangePct }

/-- Realtime price record, mirroring `StockPrice` in
`internal/handlers/websocket_handler.go`. -/
structure StockPrice where
  price : Rat
  change : Rat
  changePct : String
  deriving DecidableEq, Repr

/-- `fetchRealtimePrice` from `internal/handlers/websocket_handler.go`.
The two `rand.Float64()` draws (base-price jitter, then price variation) are
passed in as `r1` and `r2`; each lies in `[0, 1)`.  The function always
returns `.ok`, mirroring the `nil` error in the source. -/
def fetchRealtimePrice (ticker : String) (r1 r2 : Rat) :
    Except String StockPrice :=
  let (basePrice, change) : Rat × Rat :=
    if ticker = "AAPL" then (180 + (r1 * 5 - 5/2), 75/100)
    else if ticker = "MSFT" then (350 + (r1 * (15/2) - 15/4), 12/10)
    else if ticker = "GOOGL" then (130 + (r1 * 4 - 2), 5/10)
    else if ticker = "AMZN" then (140 + (r1 * 5 - 5/2), 65/100)
    else if ticker = "META" then (310 + (r1 * 6 - 3), 11/10)
    else if ticker = "TSLA" then (230 + (r1 * 10 - 5), 5/2)
    else (100 + r1 * 25, 5/10)
  let priceChange := (r2 - 1/2) * (1/2)
  let newPrice := basePrice + priceChange
  let newChange := change + priceChange
  let newChangePct := fmtFixed 2 (newChange / newPrice * 100) ++ "%"
  .ok { price := newPrice, change := newChange, changePct := newChangePct }

/-! Helper lemmas shared by the claim theorems. -/

/-- Half-away-from-zero rounding moves a value by at most one half. -/
theorem abs_goRound_sub (q : Rat) : |(goRound q : Rat) - q| ≤ 1/2 := by
  unfold goRound
  split_ifs with h
  · have h1 : ((⌊q + 1/2⌋ : Int) : Rat) ≤ q + 1/2 := Int.floor_le _
    have h2 : q + 1/2 - 1 < ((⌊q + 1/2⌋ : Int) : Rat) := Int.sub_one_lt_floor _
    rw [abs_le]
    constructor <;> push_cast at * <;> linarith
  · have h1 : q - 1/2 ≤ ((⌈q - 1/2⌉ : Int) : Rat) := Int.le_ceil _
    have h2 : ((⌈q - 1/2⌉ : Int) : Rat) < q - 1/2 + 1 := Int.ceil_lt_add_one _
    rw [abs_le]
    constructor <;> push_cast at * <;> linarith

/-- Rounding to cent precision moves a value by at most half a cent. -/
theorem abs_roundCents_sub (q : Rat) : |roundCents q - q| ≤ 1/200 := by
  have h := abs_goRound_sub (q * 100)
  have : roundCents q - q = ((goRound (q * 100) : Rat) - q * 100) / 100 := by
    unfold roundCents; ring
  rw [this, abs_div]
  rw [show |(100 : Rat)| = 100 by norm_num]
  linarith [div_le_div_of_nonneg_right (c := (100 : Rat)) h (by norm_num)]

/-- The clamped change percentage of the fallback lies in `[-5, 5]`. -/
theorem fallbackChangePercent_mem (stock : StockInfo) (r : Rat) :
    -5 ≤ fallbackChangePercent stock r ∧ fallbackChangePercent stock r ≤ 5 := by
  unfold fallbackChangePercent
  constructor
  · exact le_max_left _ _
  · exact max_le (by norm_num) (min_le_left _ _)

/-- Reading back the key just inserted returns the inserted entry. -/
theorem cacheLookup_insert (c : Cache) (k : String) (v : CachedStock) :
    cacheLookup (cacheInsert c k v) k = some v := by
  simp [cacheLookup, cacheInsert]

/-- Inserting one key leaves the entry of every other key unchanged. -/
theorem cacheLookup_insert_ne (c : Cache) (k k' : String) (v : CachedStock)
    (h : k' ≠ k) : cacheLookup (cacheInsert c k v) k' = cacheLookup c k' := by
  have hk : ¬(k = k') := fun hh => h hh.symm
  unfold cacheLookup cacheInsert
  congr 1
  rw [List.find?_cons_of_neg _ (by simpa using hk)]
  induction c with
  | nil => rfl
  | cons p ps ih =>
    by_cases hp : p.1 = k
    · have hpk' : ¬(p.1 = k') := by rw [hp]; exact hk
      simp [List.filter_cons, hp, List.find?_cons, hpk', hk, ih]
    · by_cases hp' : p.1 = k'
      · simp [List.filter_cons, hp, List.find?_cons, hp', h, hk]
      · simp [List.filter_cons, hp, List.find?_cons, hp', h, hk, ih]

/-! Claim theorems. -/

/-- C10: for every ticker string, `fetchRealtimePrice` — the price source
used by the live update channel and the stock API endpoint — returns a nil
error and a `StockPrice` whose price is strictly positive, for any values of
the two `rand.Float64()` draws. -/
theorem claim10_realtime_price_positive (ticker : String) (r1 r2 : Rat)
    (h1 : 0 ≤ r1) (_h2 : r1 < 1) (h3 : 0 ≤ r2) (_h4 : r2 < 1) :
    ∃ p, fetchRealtimePrice ticker r1 r2 = .ok p ∧ 0 < p.price := by
  unfold fetchRealtimePrice
  dsimp only
  split_ifs <;> exact ⟨_, rfl, by nlinarith⟩

/-- Witness for C10 at a concrete ticker and random draws. -/
theorem claim10_witness :
    ∃ p, fetchRealtimePrice "ZZZZ" (1/3) (2/3) = .ok p ∧ 0 < p.price :=
  claim10_realtime_price_positive "ZZZZ" (1/3) (2/3)
    (by norm_num) (by norm_num) (by norm_num) (by norm_num)

/-- C6: provider-level errors never propagate: for every query that
normalises to a non-empty ticker the chain returns a quote (real or
synthetic) and no error, whatever the three providers did; the only
caller-visible failure is the empty-ticker validation error. -/
theorem claim6_no_error_propagation (nameOf : String → String) (t : String)
    (tw : Option TwelveWire) (av : Option AlphaWire) (fh : Option FinnWire)
    (rec : Except String String) (pred : Option StockPrediction)
    (cache : Cache) (now : Nat) :
    (normalizeTicker t = "" →
      ∃ e, (FetchStockInfoChain nameOf t tw av fh rec pred cache now).1 = .error e) ∧
    (normalizeTicker t ≠ "" →
      ∃ q, (FetchStockInfoChain nameOf t tw av fh rec pred cache now).1 = .ok q) := by
  constructor
  · intro h
    simp [FetchStockInfoChain, h]
  · intro h
    unfold FetchStockInfoChain
    rw [if_neg h]
    cases htw : fetchFromTwelveData tw (normalizeTicker t) with
    | ok q => exact ⟨_, rfl⟩
    | error e1 =>
      cases hav : fetchFromAlphaVantage nameOf av (normalizeTicker t) with
      | ok q => exact ⟨_, rfl⟩
      | error e2 =>
        cases hfh : fetchFromFinnhub nameOf fh (normalizeTicker t) with
        | ok q => exact ⟨_, rfl⟩
        | error e3 => exact ⟨_, rfl⟩

/-- Witness for C6: with every provider failing, fetching `"AAPL"` still
returns a quote. -/
theorem claim6_witness :
    ∃ q, (FetchStockInfoChain (fun t => t) "AAPL" none none none
      (.ok "BUY") none [] 0).1 = .ok q :=
  (claim6_no_error_propagation (fun t => t) "AAPL" none none none
    (.ok "BUY") none [] 0).2 (by decide)

/-- A concrete Twelve Data body used to exercise the chain. -/
def sampleTwelveWire : TwelveWire :=
  { symbol := "AAPL", name := "Apple Inc.", open_ := some 149
    high := some 152, low := some (297/2), close := some (601/4)
    volume := some 75000000, change := some (5/2)
    percentChange := "1.68%" }

/-- C4: the chain queries ["Twelve Data", "Alpha Vantage", "Finnhub"] in that
fixed order (the invocation log is always a prefix of that list), and as soon
as a provider yields a successfully parsed quote with positive price the
chain stops: the result is that quote (enriched), and no later provider is
invoked. -/
theorem claim4_chain_order (nameOf : String → String) (t : String)
    (tw : Option TwelveWire) (av : Option AlphaWire) (fh : Option FinnWire)
    (rec : Except String String) (pred : Option StockPrediction)
    (cache : Cache) (now : Nat) (hne : normalizeTicker t ≠ "") :
    (∃ s, (FetchStockInfoChain nameOf t tw av fh rec pred cache now).2.2 ++ s =
       [Provider.twelveData, Provider.alphaVantage, Provider.finnhub]) ∧
    (∀ q, fetchFromTwelveData tw (normalizeTicker t) = .ok q → 0 < q.price →
       (FetchStockInfoChain nameOf t tw av fh rec pred cache now).1 =
         .ok (enrichStockInfo q rec pred) ∧
       (FetchStockInfoChain nameOf t tw av fh rec pred cache now).2.2 =
         [Provider.twelveData]) ∧
    (∀ e q, fetchFromTwelveData tw (normalizeTicker t) = .error e →
       fetchFromAlphaVantage nameOf av (normalizeTicker t) = .ok q → 0 < q.price →
       (FetchStockInfoChain nameOf t tw av fh rec pred cache now).1 =
         .ok (enrichStockInfo q rec pred) ∧
       (FetchStockInfoChain nameOf t tw av fh rec pred cache now).2.2 =
         [Provider.twelveData, Provider.alphaVantage]) ∧
    (∀ e1 e2 q, fetchFromTwelveData tw (normalizeTicker t) = .error e1 →
       fetchFromAlphaVantage nameOf av (normalizeTicker t) = .error e2 →
       fetchFromFinnhub nameOf fh (normalizeTicker t) = .ok q → 0 < q.price →
       (FetchStockInfoChain nameOf t tw av fh rec pred cache now).1 =
         .ok (enrichStockInfo q rec pred) ∧
       (FetchStockInfoChain nameOf t tw av fh rec pred cache now).2.2 =
         [Provider.twelveData, Provider.alphaVantage, Provider.finnhub]) := by
  unfold FetchStockInfoChain
  rw [if_neg hne]
  cases htw : fetchFromTwelveData tw (normalizeTicker t) with
  | ok q0 =>
    simp only [addAIAnalysis]
    refine ⟨⟨[Provider.alphaVantage, Provider.finnhub], rfl⟩, ?_, ?_, ?_⟩
    · intro q hq _
      cases hq
      exact ⟨rfl, trivial⟩
    · intro e q he _ _
      exact Except.noConfusion he
    · intro e1 e2 q he1 _ _ _
      exact Except.noConfusion he1
  | error e0 =>
    cases hav : fetchFromAlphaVantage nameOf av (normalizeTicker t) with
    | ok q0 =>
      simp only [addAIAnalysis]
      refine ⟨⟨[Provider.finnhub], rfl⟩, ?_, ?_, ?_⟩
      · intro q hq _
        exact Except.noConfusion hq
      · intro e q _ hq _
        cases hq
        exact ⟨rfl, trivial⟩
      · intro e1 e2 q _ he2 _ _
        exact Except.noConfusion he2
    | error e1 =>
      cases hfh : fetchFromFinnhub nameOf fh (normalizeTicker t) with
      | ok q0 =>
        simp only [addAIAnalysis]
        refine ⟨⟨[], rfl⟩, ?_, ?_, ?_⟩
        · intro q hq _
          exact Except.noConfusion hq
        · intro e q _ hq _
          exact Except.noConfusion hq
        · intro e1 e2 q _ _ hq _
          cases hq
          exact ⟨rfl, trivial⟩
      | error e2 =>
        refine ⟨⟨[], rfl⟩, ?_, ?_, ?_⟩
        · intro q hq _
          exact Except.noConfusion hq
        · intro e q _ hq _
          exact Except.noConfusion hq
        · intro e1 e2 q _ _ hq _
          exact Except.noConfusion hq

/-- Witness for C4: the concrete Twelve Data body ends the chain at the
first provider. -/
theorem claim4_witness :
    (FetchStockInfoChain (fun t => t) "AAPL" (some sampleTwelveWire)
        none none (.ok "BUY") none [] 7).1 =
      .ok (enrichStockInfo (parseTwelveDataResponse sampleTwelveWire)
        (.ok "BUY") none) ∧
    (FetchStockInfoChain (fun t => t) "AAPL" (some sampleTwelveWire)
        none none (.ok "BUY") none [] 7).2.2 = [Provider.twelveData] :=
  (claim4_chain_order (fun t => t) "AAPL" (some sampleTwelveWire)
      none none (.ok "BUY") none [] 7 (by decide)).2.1
    (parseTwelveDataResponse sampleTwelveWire)
    (by simp [fetchFromTwelveData, sampleTwelveWire])
    (by norm_num [parseTwelveDataResponse, sampleTwelveWire])

/-- C1 counterexample: with the suppression gate tripped (4 > 3 consecutive
failures, last attempt 100 s ago, inside the 5-minute window), the call
attempts no network request — but it returns an error message to the caller,
not synthetic (fallback) quote data. -/
theorem claim1_cex :
    (FetchStockInfoYahoo "AAPL" ⟨4, 100⟩ (.ok []) (.ok "HOLD") none [] 200).1 =
      .error "yahoo Finance API is currently experiencing issues - please try again in a few minutes" ∧
    (FetchStockInfoYahoo "AAPL" ⟨4, 100⟩ (.ok []) (.ok "HOLD") none [] 200).2.2.1 =
      false := by
  constructor <;> rfl

/-- C1 (amended): whenever the consecutive-failure count exceeds 3 and the
most recent attempt lies within the 5-minute suppression window, the call
attempts no network request and returns an error message to the caller
(rather than synthetic quote data). -/
theorem claim1_amended (t : String) (st : FailState) (net : YahooOutcome)
    (rec : Except String String) (pred : Option StockPrediction)
    (cache : Cache) (now : Nat) (hne : normalizeTicker t ≠ "")
    (hc : st.count > 3) (hw : now - st.lastCall < 300) :
    (FetchStockInfoYahoo t st net rec pred cache now).2.2.1 = false ∧
    (FetchStockInfoYahoo t st net rec pred cache now).1 =
      .error "yahoo Finance API is currently experiencing issues - please try again in a few minutes" := by
  unfold FetchStockInfoYahoo
  rw [if_neg hne, if_pos ⟨hc, hw⟩]
  exact ⟨rfl, rfl⟩

/-- Witness for the amended C1 at a concrete suppressed state. -/
theorem claim1_witness :
    (FetchStockInfoYahoo "TSLA" ⟨7, 40⟩ .netErr (.ok "HOLD") none [] 60).2.2.1 =
      false ∧
    (FetchStockInfoYahoo "TSLA" ⟨7, 40⟩ .netErr (.ok "HOLD") none [] 60).1 =
      .error "yahoo Finance API is currently experiencing issues - please try again in a few minutes" :=
  claim1_amended "TSLA" ⟨7, 40⟩ .netErr (.ok "HOLD") none [] 60
    (by decide) (by decide) (by decide)

/-- A Yahoo result row carrying a non-positive market price. -/
def zeroPriceQuote : YahooQuote :=
  { symbol := "AAPL", shortName := "Apple", longName := "Apple Inc."
    regularMarketPrice := 0, regularMarketChange := 0
    regularMarketChangePercent := 0, regularMarketOpen := 0
    regularMarketDayHigh := 0, regularMarketDayLow := 0
    regularMarketVolume := 0, marketCap := 0 }

/-- C5 counterexample: two fetch errors on which the counter does not behave
as claimed.  A response that parses but carries a non-positive price is a
fetch error, yet it RESETS the counter (2 becomes 0, not 3); a JSON parse
failure is a fetch error, yet it leaves the counter unchanged (2 stays 2,
not 3). -/
theorem claim5_cex :
    (FetchStockInfoYahoo "AAPL" ⟨2, 0⟩ (.ok [zeroPriceQuote]) (.ok "HOLD")
        none [] 1000).1 =
      .error "invalid price data received from Yahoo Finance API" ∧
    (FetchStockInfoYahoo "AAPL" ⟨2, 0⟩ (.ok [zeroPriceQuote]) (.ok "HOLD")
        none [] 1000).2.1.count = 0 ∧
    (FetchStockInfoYahoo "AAPL" ⟨2, 0⟩ (.ok [zeroPriceQuote]) (.ok "HOLD")
        none [] 1000).2.1.count ≠ 2 + 1 ∧
    (FetchStockInfoYahoo "AAPL" ⟨2, 0⟩ .parseErr (.ok "HOLD")
        none [] 1000).2.1.count = 2 ∧
    (FetchStockInfoYahoo "AAPL" ⟨2, 0⟩ .parseErr (.ok "HOLD")
        none [] 1000).2.1.count ≠ 2 + 1 := by
  refine ⟨rfl, rfl, by decide, rfl, by decide⟩

/-- C5 (amended): the exact counter dynamics of the Yahoo fetch path.  The
counter is incremented on network errors, bad HTTP statuses, and API-error
payloads; it is left unchanged by request-creation, body-read, and JSON
parse failures; and it is reset to zero as soon as a response parses without
an API-error field — even when that response is itself a fetch error (empty
result set or non-positive price). -/
theorem claim5_amended (t : String) (st : FailState)
    (rec : Except String String) (pred : Option StockPrediction)
    (cache : Cache) (now : Nat) (hne : normalizeTicker t ≠ "")
    (hgate : ¬(st.count > 3 ∧ now - st.lastCall < 300)) :
    ((FetchStockInfoYahoo t st .netErr rec pred cache now).2.1.count =
      st.count + 1) ∧
    (∀ code, (FetchStockInfoYahoo t st (.badStatus code) rec pred cache
      now).2.1.count = st.count + 1) ∧
    ((FetchStockInfoYahoo t st .apiErr rec pred cache now).2.1.count =
      st.count + 1) ∧
    ((FetchStockInfoYahoo t st .reqErr rec pred cache now).2.1.count =
      st.count) ∧
    ((FetchStockInfoYahoo t st .readErr rec pred cache now).2.1.count =
      st.count) ∧
    ((FetchStockInfoYahoo t st .parseErr rec pred cache now).2.1.count =
      st.count) ∧
    (∀ results, (FetchStockInfoYahoo t st (.ok results) rec pred cache
      now).2.1.count = 0) := by
  refine ⟨?_, fun code => ?_, ?_, ?_, ?_, ?_, fun results => ?_⟩ <;>
      (unfold FetchStockInfoYahoo; rw [if_neg hne, if_neg hgate]) <;> try rfl
  cases results with
  | nil => rfl
  | cons q qs =>
    dsimp only
    split <;> rfl

/-- Witness for the amended C5 at a concrete state and outcome. -/
theorem claim5_witness :
    (FetchStockInfoYahoo "AAPL" ⟨0, 5⟩ .netErr (.ok "HOLD") none []
      10).2.1.count = 0 + 1 :=
  (claim5_amended "AAPL" ⟨0, 5⟩ (.ok "HOLD") none [] 10
    (by decide) (by decide)).1

/-- C7: a quote put into the cache and looked up for the same ticker within
the five-minute TTL is served as a hit — `SearchStock` returns before
reaching `FetchStockInfo`, so no network call happens — and the returned
quote equals the stored one in every field except `DataAge`, which is the
nonnegative entry age. -/
theorem claim7_cache_roundtrip (query key : String) (stock : StockInfo)
    (cache : Cache) (t0 t1 : Nat) (hkey : resolveTicker query = key)
    (hle : t0 ≤ t1) (httl : t1 - t0 < 300) :
    SearchStock query (CacheStockInfo cache key stock t0) t1 =
      .hit { stock with dataAge := ((t1 - t0 : Nat) : Int) }
        (cacheInsert (CacheStockInfo cache key stock t0) key
          ⟨{ stock with dataAge := ((t1 - t0 : Nat) : Int) }, t0⟩) ∧
    0 ≤ ((t1 - t0 : Nat) : Int) := by
  refine ⟨?_, Int.ofNat_nonneg _⟩
  unfold SearchStock CacheStockInfo
  rw [hkey]
  simp only [cacheLookup_insert, httl, if_true]

/-- Witness for C7 at a concrete ticker and timestamps. -/
theorem claim7_witness :
    SearchStock "AAPL" (CacheStockInfo [] "AAPL" enhancedAAPL 10) 100 =
      .hit { enhancedAAPL with dataAge := ((90 : Nat) : Int) }
        (cacheInsert (CacheStockInfo [] "AAPL" enhancedAAPL 10) "AAPL"
          ⟨{ enhancedAAPL with dataAge := ((90 : Nat) : Int) }, 10⟩) ∧
    0 ≤ ((90 : Nat) : Int) :=
  claim7_cache_roundtrip "AAPL" "AAPL" enhancedAAPL [] 10 100
    (by decide) (by decide) (by decide)

/-- A low-priced quote on which cent rounding in the fallback predictor
leaves the 10% band. -/
def pennyStock : StockInfo :=
  { ticker := "PNNY", companyName := "Penny Co"
    price := 7/500, change := 7/1000, changePct := "50.00%"
    open_ := 7/500, high := 7/500, low := 7/500
    volume := "1", marketCap := "$1"
    recommendation := "", aiAnalysis := ""
    predictedPrice := 0, predictionConfidence := 0
    trendDirection := "", keyFactors := []
    dataAge := 0 }

/-- C2 counterexample: at a concrete quote with positive price, the
prediction returned by `PredictStockMovement` (fallback path) has
`|predictedPrice − price| = 1/250 > (1/10)·price = 7/5000`, and its
confidence is 78 — a 0–100-scale value violating `confidence ≤ 0.95`.  No
10%-band clamp or ×0.85 confidence penalty exists on this path. -/
theorem claim2_cex :
    PredictStockMovement true false none none pennyStock (3/5) 10 =
      .ok (fallbackPrediction pennyStock (3/5) 10) ∧
    (fallbackPrediction pennyStock (3/5) 10).predictedPrice = 1/100 ∧
    ¬(|(fallbackPrediction pennyStock (3/5) 10).predictedPrice -
        pennyStock.price| ≤ (1/10) * pennyStock.price) ∧
    (fallbackPrediction pennyStock (3/5) 10).confidence = 78 ∧
    ¬((fallbackPrediction pennyStock (3/5) 10).confidence ≤ 95/100) := by
  refine ⟨rfl, ?_, ?_, ?_, ?_⟩ <;>
    norm_num [fallbackPrediction, fallbackPredictedChange, fallbackChangePercent,
      roundCents, goRound, pennyStock, min_def, max_def]
  rw [abs_of_pos (show (0 : Rat) < 1/250 by norm_num)]
  norm_num

/-- C2 (amended): for every quote with positive price and fallback random
term `r ∈ [0, 1]`, the fallback path of `PredictStockMovement` returns a
prediction with `|predictedPrice − price| ≤ price/20 + 1/200` (the ±5% clamp
plus at most half a cent of rounding) and confidence in `[60, 90]` on the
0–100 scale; there is no 10% band and no ×0.85 confidence penalty. -/
theorem claim2_amended (bi : Bool) (stock : StockInfo) (r : Rat) (hour : Nat)
    (hr0 : 0 ≤ r) (hr1 : r ≤ 1) (hp : 0 < stock.price) :
    PredictStockMovement true bi none none stock r hour =
      .ok (fallbackPrediction stock r hour) ∧
    |(fallbackPrediction stock r hour).predictedPrice - stock.price| ≤
      stock.price / 20 + 1/200 ∧
    60 ≤ (fallbackPrediction stock r hour).confidence ∧
    (fallbackPrediction stock r hour).confidence ≤ 90 := by
  have hfst : PredictStockMovement true bi none none stock r hour =
      .ok (fallbackPrediction stock r hour) := by cases bi <;> rfl
  have hpp : (fallbackPrediction stock r hour).predictedPrice =
      roundCents (stock.price + fallbackPredictedChange stock r) := rfl
  have hcf : (fallbackPrediction stock r hour).confidence = 60 + r * 30 := rfl
  have hcl := fallbackChangePercent_mem stock r
  have h5 : |fallbackChangePercent stock r| ≤ 5 := abs_le.mpr ⟨hcl.1, hcl.2⟩
  have hpc : |fallbackPredictedChange stock r| ≤ stock.price / 20 := by
    unfold fallbackPredictedChange
    rw [abs_mul, abs_of_pos hp, abs_div,
      abs_of_pos (show (0 : Rat) < 100 by norm_num)]
    calc stock.price * (|fallbackChangePercent stock r| / 100)
        ≤ stock.price * (5 / 100) := by gcongr
      _ = stock.price / 20 := by ring
  have hrc := abs_roundCents_sub (stock.price + fallbackPredictedChange stock r)
  refine ⟨hfst, ?_, ?_, ?_⟩
  · rw [hpp]
    rw [show roundCents (stock.price + fallbackPredictedChange stock r) -
          stock.price =
        (roundCents (stock.price + fallbackPredictedChange stock r) -
          (stock.price + fallbackPredictedChange stock r)) +
          fallbackPredictedChange stock r by ring]
    calc |(roundCents (stock.price + fallbackPredictedChange stock r) -
            (stock.price + fallbackPredictedChange stock r)) +
            fallbackPredictedChange stock r|
        ≤ |roundCents (stock.price + fallbackPredictedChange stock r) -
            (stock.price + fallbackPredictedChange stock r)| +
          |fallbackPredictedChange stock r| := abs_add _ _
      _ ≤ 1/200 + stock.price / 20 := add_le_add hrc hpc
      _ = stock.price / 20 + 1/200 := by ring
  · rw [hcf]; nlinarith
  · rw [hcf]; nlinarith

/-- Witness for the amended C2 at a concrete quote and random term. -/
theorem claim2_witness :
    PredictStockMovement true false none none pennyStock (3/5) 10 =
      .ok (fallbackPrediction pennyStock (3/5) 10) ∧
    |(fallbackPrediction pennyStock (3/5) 10).predictedPrice -
      pennyStock.price| ≤ pennyStock.price / 20 + 1/200 ∧
    60 ≤ (fallbackPrediction pennyStock (3/5) 10).confidence ∧
    (fallbackPrediction pennyStock (3/5) 10).confidence ≤ 90 :=
  claim2_amended false pennyStock (3/5) 10 (by norm_num) (by norm_num)
    (by norm_num [pennyStock])

/-- A quote whose fallback-predicted change is +0.6%, between the claimed
±1% thresholds. -/
def nudgeStock : StockInfo :=
  { ticker := "NDGE", companyName := "Nudge Co"
    price := 100, change := 1/2, changePct := "0.50%"
    open_ := 100, high := 101, low := 99
    volume := "1M", marketCap := "$1B"
    recommendation := "", aiAnalysis := ""
    predictedPrice := 0, predictionConfidence := 0
    trendDirection := "", keyFactors := []
    dataAge := 0 }

/-- C9 counterexample: the fallback predictor reached through
`PredictStockMovement` classifies a predicted change of +0.6% — which is not
greater than +1% — as UP, because the code thresholds on the sign of the
predicted dollar change, not on ±1%. -/
theorem claim9_cex :
    PredictStockMovement true false none none nudgeStock (3/5) 10 =
      .ok (fallbackPrediction nudgeStock (3/5) 10) ∧
    (fallbackPrediction nudgeStock (3/5) 10).direction = "UP" ∧
    ((fallbackPrediction nudgeStock (3/5) 10).predictedPrice -
        nudgeStock.price) / nudgeStock.price * 100 = 3/5 ∧
    ¬(((fallbackPrediction nudgeStock (3/5) 10).predictedPrice -
        nudgeStock.price) / nudgeStock.price * 100 > 1) := by
  refine ⟨rfl, ?_, ?_, ?_⟩ <;>
    norm_num [fallbackPrediction, fallbackPredictedChange, fallbackChangePercent,
      roundCents, goRound, nudgeStock, min_def, max_def]

/-- C9 (amended): the fallback inside `PredictStockMovement` classifies the
direction by the SIGN of the predicted dollar change (any positive change is
UP, any negative is DOWN, zero is NEUTRAL); the ±1-percentage-point
thresholds of the claim are used only by `simulatePrediction`, which
`PredictStockMovement` never calls. -/
theorem claim9_amended :
    (∀ (stock : StockInfo) (r : Rat) (hour : Nat),
       (fallbackPrediction stock r hour).direction =
         (if fallbackPredictedChange stock r > 0 then "UP"
          else if fallbackPredictedChange stock r < 0 then "DOWN"
          else "NEUTRAL")) ∧
    (∀ (stock : StockInfo) (f : Features) (intraday : Bool) (r : Rat),
       (simulatePrediction stock f intraday r).direction =
         (if simPredictedChangePct f intraday r > 1 then "UP"
          else if simPredictedChangePct f intraday r < -1 then "DOWN"
          else "NEUTRAL")) :=
  ⟨fun _ _ _ => rfl, fun _ _ _ _ => rfl⟩

/-- C3 counterexample: `"WBA"` and `"BWA"` have the same character-code sum
(218), yet the generator returns different base prices for them (11.34 vs
88.18), because `"WBA"` is served from the hardcoded two-entry demo map
rather than derived from the seed. -/
theorem claim3_cex :
    charSum "WBA" = charSum "BWA" ∧
    (createRealisticStockData (fun t => t) "WBA").price ≠
      (createRealisticStockData (fun t => t) "BWA").price := by
  constructor
  · decide
  · simp [createRealisticStockData, enhancedWBA, charSum]
    norm_num

/-- C3 (amended): the generator is deterministic for every ticker — its base
price, change, and volume string do not depend on the one run-to-run-varying
ingredient (the map-iteration-dependent company-name lookup), so two calls
with the same ticker agree — and for every ticker outside the hardcoded demo
map ({"WBA", "AAPL"}) those three outputs are functions of the seed
`charSum ticker` alone. -/
theorem claim3_amended :
    (∀ (n1 n2 : String → String) (t : String),
       (createRealisticStockData n1 t).price =
         (createRealisticStockData n2 t).price ∧
       (createRealisticStockData n1 t).change =
         (createRealisticStockData n2 t).change ∧
       (createRealisticStockData n1 t).volume =
         (createRealisticStockData n2 t).volume) ∧
    (∀ (n1 n2 : String → String) (t1 t2 : String),
       t1 ≠ "WBA" → t1 ≠ "AAPL" → t2 ≠ "WBA" → t2 ≠ "AAPL" →
       charSum t1 = charSum t2 →
       (createRealisticStockData n1 t1).price =
         (createRealisticStockData n2 t2).price ∧
       (createRealisticStockData n1 t1).change =
         (createRealisticStockData n2 t2).change ∧
       (createRealisticStockData n1 t1).volume =
         (createRealisticStockData n2 t2).volume) := by
  constructor
  · intro n1 n2 t
    unfold createRealisticStockData
    split_ifs <;> exact ⟨rfl, rfl, rfl⟩
  · intro n1 n2 t1 t2 h1 h2 h3 h4 hsum
    unfold createRealisticStockData
    rw [if_neg h1, if_neg h2, if_neg h3, if_neg h4]
    simp only [hsum]
    exact ⟨trivial, trivial, trivial⟩

/-- Witness for the amended C3: same-ticker calls agree under different
name oracles, and the anagram tickers `"ABC"`/`"CBA"` (equal seeds) get the
same base price. -/
theorem claim3_witness :
    ((createRealisticStockData (fun t => t) "ZZZZ").price =
      (createRealisticStockData (fun _ => "Other") "ZZZZ").price) ∧
    ((createRealisticStockData (fun t => t) "ABC").price =
      (createRealisticStockData (fun t => t) "CBA").price) :=
  ⟨(claim3_amended.1 (fun t => t) (fun _ => "Other") "ZZZZ").1,
   (claim3_amended.2 (fun t => t) (fun t => t) "ABC" "CBA"
     (by decide) (by decide) (by decide) (by decide) (by decide)).1⟩

/-- C8 counterexample: a cache-hit read partially mutates the stored entry:
after `SearchStock` serves `"AAPL"` from a cache whose entry was written at
time 0, the stored entry at time 100 keeps its timestamp 0 but the `DataAge` field of its quote has been changed in place from 0 to 100 — a mutation that is
not a wholesale replacement. -/
theorem claim8_cex :
    SearchStock "AAPL" [("AAPL", ⟨enhancedAAPL, 0⟩)] 100 =
      .hit { enhancedAAPL with dataAge := 100 }
        [("AAPL", ⟨{ enhancedAAPL with dataAge := 100 }, 0⟩)] ∧
    { enhancedAAPL with dataAge := 100 } ≠ enhancedAAPL := by
  constructor
  · rfl
  · intro h
    exact absurd (congrArg StockInfo.dataAge h) (by decide)

/-- C8 (amended): entries are replaced wholesale by both fetch paths — the
chain revision and the Yahoo revision each either leave the cache unchanged
or store a complete fresh entry (new quote, new timestamp) — while the one
in-place mutation in the system is the cache-hit read (`SearchStock` and
`GetCachedStock`), which rewrites exactly the `DataAge` field of the entry
under the looked-up key, leaving its timestamp, every other quote field, and
the entry of every other key unchanged. -/
theorem claim8_amended :
    (∀ (query : String) (cache : Cache) (now : Nat) (e : CachedStock),
       cacheLookup cache (resolveTicker query) = some e →
       now - e.timestamp < 300 →
       SearchStock query cache now =
         .hit { e.data with dataAge := ((now - e.timestamp : Nat) : Int) }
           (cacheInsert cache (resolveTicker query)
             ⟨{ e.data with dataAge := ((now - e.timestamp : Nat) : Int) },
               e.timestamp⟩) ∧
       (∀ k, k ≠ resolveTicker query →
          cacheLookup (cacheInsert cache (resolveTicker query)
            ⟨{ e.data with dataAge := ((now - e.timestamp : Nat) : Int) },
              e.timestamp⟩) k = cacheLookup cache k) ∧
       cacheLookup (cacheInsert cache (resolveTicker query)
           ⟨{ e.data with dataAge := ((now - e.timestamp : Nat) : Int) },
             e.timestamp⟩) (resolveTicker query) =
         some ⟨{ e.data with dataAge := ((now - e.timestamp : Nat) : Int) },
           e.timestamp⟩) ∧
    (∀ (key : String) (cache : Cache) (now : Nat) (e : CachedStock),
       cacheLookup cache key = some e →
       GetCachedStock cache key now =
         (some { e.data with dataAge := ((now - e.timestamp : Nat) : Int) },
          cacheInsert cache key
            ⟨{ e.data with dataAge := ((now - e.timestamp : Nat) : Int) },
              e.timestamp⟩) ∧
       (∀ k, k ≠ key →
          cacheLookup (cacheInsert cache key
            ⟨{ e.data with dataAge := ((now - e.timestamp : Nat) : Int) },
              e.timestamp⟩) k = cacheLookup cache k) ∧
       cacheLookup (cacheInsert cache key
           ⟨{ e.data with dataAge := ((now - e.timestamp : Nat) : Int) },
             e.timestamp⟩) key =
         some ⟨{ e.data with dataAge := ((now - e.timestamp : Nat) : Int) },
           e.timestamp⟩) ∧
    (∀ (nameOf : String → String) (t : String) (tw : Option TwelveWire)
       (av : Option AlphaWire) (fh : Option FinnWire)
       (rec : Except String String) (pred : Option StockPrediction)
       (cache : Cache) (now : Nat),
       (FetchStockInfoChain nameOf t tw av fh rec pred cache now).2.1 = cache ∨
       ∃ q, (FetchStockInfoChain nameOf t tw av fh rec pred cache now).1 =
           .ok q ∧
         (FetchStockInfoChain nameOf t tw av fh rec pred cache now).2.1 =
           cacheInsert cache q.ticker ⟨q, now⟩) ∧
    (∀ (t : String) (st : FailState) (net : YahooOutcome)
       (rec : Except String String) (pred : Option StockPrediction)
       (cache : Cache) (now : Nat),
       (FetchStockInfoYahoo t st net rec pred cache now).2.2.2 = cache ∨
       ∃ q, (FetchStockInfoYahoo t st net rec pred cache now).1 = .ok q ∧
         (FetchStockInfoYahoo t st net rec pred cache now).2.2.2 =
           cacheInsert cache (normalizeTicker t) ⟨q, now⟩) := by
  refine ⟨?_, ?_, ?_, ?_⟩
  · intro query cache now e hl htt
    unfold SearchStock
    simp only [hl]
    rw [if_pos htt]
    exact ⟨rfl, fun k hk => cacheLookup_insert_ne _ _ _ _ hk,
      cacheLookup_insert _ _ _⟩
  · intro key cache now e hl
    refine ⟨?_, fun k hk => cacheLookup_insert_ne _ _ _ _ hk,
      cacheLookup_insert _ _ _⟩
    unfold GetCachedStock
    rw [hl]
  · intro nameOf t tw av fh rec pred cache now
    unfold FetchStockInfoChain
    by_cases hne : normalizeTicker t = ""
    · rw [if_pos hne]
      exact .inl rfl
    · rw [if_neg hne]
      cases htw : fetchFromTwelveData tw (normalizeTicker t) with
      | ok q0 =>
        simp only [addAIAnalysis]
        exact .inr ⟨_, rfl, rfl⟩
      | error e0 =>
        cases hav : fetchFromAlphaVantage nameOf av (normalizeTicker t) with
        | ok q0 =>
          simp only [addAIAnalysis]
          exact .inr ⟨_, rfl, rfl⟩
        | error e1 =>
          cases hfh : fetchFromFinnhub nameOf fh (normalizeTicker t) with
          | ok q0 =>
            simp only [addAIAnalysis]
            exact .inr ⟨_, rfl, rfl⟩
          | error e2 => exact .inl rfl
  · intro t st net rec pred cache now
    unfold FetchStockInfoYahoo
    by_cases hne : normalizeTicker t = ""
    · rw [if_pos hne]
      exact .inl rfl
    · rw [if_neg hne]
      by_cases hg : st.count > 3 ∧ now - st.lastCall < 300
      · rw [if_pos hg]
        exact .inl rfl
      · rw [if_neg hg]
        cases net with
        | reqErr => exact .inl rfl
        | netErr => exact .inl rfl
        | badStatus code => exact .inl rfl
        | readErr => exact .inl rfl
        | parseErr => exact .inl rfl
        | apiErr => exact .inl rfl
        | ok results =>
          cases results with
          | nil => exact .inl rfl
          | cons q qs =>
            dsimp only
            by_cases hq : q.regularMarketPrice ≤ 0
            · rw [if_pos hq]
              exact .inl rfl
            · rw [if_neg hq]
              exact .inr ⟨_, rfl, rfl⟩

/-- Witness for the amended C8 at a concrete cache: one `SearchStock` hit
and one `GetCachedStock` read, each with its hypotheses discharged. -/
theorem claim8_witness :
    (SearchStock "MSFT" [("MSFT", ⟨enhancedWBA, 5⟩)] 50 =
      .hit { enhancedWBA with dataAge := ((50 - 5 : Nat) : Int) }
        (cacheInsert [("MSFT", ⟨enhancedWBA, 5⟩)] (resolveTicker "MSFT")
          ⟨{ enhancedWBA with dataAge := ((50 - 5 : Nat) : Int) }, 5⟩) ∧
    (∀ k, k ≠ resolveTicker "MSFT" →
       cacheLookup (cacheInsert [("MSFT", ⟨enhancedWBA, 5⟩)]
         (resolveTicker "MSFT")
         ⟨{ enhancedWBA with dataAge := ((50 - 5 : Nat) : Int) }, 5⟩) k =
       cacheLookup [("MSFT", ⟨enhancedWBA, 5⟩)] k) ∧
    cacheLookup (cacheInsert [("MSFT", ⟨enhancedWBA, 5⟩)]
        (resolveTicker "MSFT")
        ⟨{ enhancedWBA with dataAge := ((50 - 5 : Nat) : Int) }, 5⟩)
      (resolveTicker "MSFT") =
      some ⟨{ enhancedWBA with dataAge := ((50 - 5 : Nat) : Int) }, 5⟩) ∧
    (GetCachedStock [("WBA", ⟨enhancedAAPL, 7⟩)] "WBA" 30 =
      (some { enhancedAAPL with dataAge := ((30 - 7 : Nat) : Int) },
       cacheInsert [("WBA", ⟨enhancedAAPL, 7⟩)] "WBA"
         ⟨{ enhancedAAPL with dataAge := ((30 - 7 : Nat) : Int) }, 7⟩) ∧
    (∀ k, k ≠ "WBA" →
       cacheLookup (cacheInsert [("WBA", ⟨enhancedAAPL, 7⟩)] "WBA"
         ⟨{ enhancedAAPL with dataAge := ((30 - 7 : Nat) : Int) }, 7⟩) k =
       cacheLookup [("WBA", ⟨enhancedAAPL, 7⟩)] k) ∧
    cacheLookup (cacheInsert [("WBA", ⟨enhancedAAPL, 7⟩)] "WBA"
        ⟨{ enhancedAAPL with dataAge := ((30 - 7 : Nat) : Int) }, 7⟩)
      "WBA" =
      some ⟨{ enhancedAAPL with dataAge := ((30 - 7 : Nat) : Int) }, 7⟩) :=
  ⟨claim8_amended.1 "MSFT" [("MSFT", ⟨enhancedWBA, 5⟩)] 50 ⟨enhancedWBA, 5⟩
      rfl (by decide),
   claim8_amended.2.1 "WBA" [("WBA", ⟨enhancedAAPL, 7⟩)] 30 ⟨enhancedAAPL, 7⟩
      rfl⟩

end Investify
